import Mathlib

/-!
Shallow embedding of `scripts/smart_vertical_crop.py` (smart auto-crop of
landscape videos into vertical format) and verification of the spec's claims
about it.

Python real arithmetic is modelled over `ℚ`; Python's `int(...)` conversion
(truncation toward zero) is modelled by `pytrunc`.  External collaborators
(the YOLO detection backend, OpenCV decoding, PySceneDetect, ffmpeg) are
modelled as black-box data supplied through environment records, exactly at
the call boundaries the script uses; every piece of decision logic between
those boundaries is translated line by line from the source.
-/

namespace SmartCrop


/-- Python `int(x)` on a real value: truncation toward zero. -/
def pytrunc (q : ℚ) : ℤ := if 0 ≤ q then ⌊q⌋ else -⌊-q⌋

/-- A decoded raster frame.  The script never inspects pixel data itself (it
hands frames to the detection backend), so a frame is opaque and carries only
an identity. -/
abbrev Frame := ℕ

/-- An axis-aligned detection box `(x1, y1, x2, y2)` in `xyxy` layout, as
returned by `boxes.xyxy` for the person class. -/
structure Box where
  x1 : ℚ
  y1 : ℚ
  x2 : ℚ
  y2 : ℚ
  deriving DecidableEq, Repr

/-- `--box-strategy` choices (`argparse` restricts to these two). -/
inductive Strategy where
  | largest
  | centered
  deriving DecidableEq, Repr

/-- `(boxes[:, 2] - boxes[:, 0]) * (boxes[:, 3] - boxes[:, 1])` for one box. -/
def box_area (b : Box) : ℚ := (b.x2 - b.x1) * (b.y2 - b.y1)

/-- `(boxes[:, 0] + boxes[:, 2]) / 2` for one box. -/
def box_center (b : Box) : ℚ := (b.x1 + b.x2) / 2

/-- `_pick_box(boxes, frame_center, strategy)` from the script.  `np.argmax`
over the areas and `np.argmin` over the center distances return the first
index attaining the optimum; a left fold that replaces the running best only
on a strictly better candidate reproduces exactly that choice. -/
def pick_box (boxes : List Box) (frame_center : ℚ) (strategy : Strategy) :
    Option Box :=
  match boxes with
  | [] => none
  | b :: bs =>
    match strategy with
    | .largest =>
      some (bs.foldl (fun best c => if box_area best < box_area c then c else best) b)
    | .centered =>
      some (bs.foldl (fun best c =>
        if |box_center c - frame_center| < |box_center best - frame_center| then c
        else best) b)

/-- `detect_center(frames, frame_width, conf, strategy)`.  The call
`model.predict(frames, conf=conf)` filtered to `cls == 0` is the black box:
it is modelled by `backend`, mapping each frame to its list of person boxes
above the confidence threshold, aligned with the input batch. -/
def detect_center (backend : Frame → List Box) (frames : List Frame)
    (frame_width : ℤ) (strategy : Strategy) : ℚ :=
  let results := frames.map backend
  let centers := results.filterMap (fun person_boxes =>
    (pick_box person_boxes ((frame_width : ℚ) / 2) strategy).map
      (fun chosen => (chosen.x1 + chosen.x2) / 2))
  if centers.isEmpty then (frame_width : ℚ) / 2
  else centers.sum / (centers.length : ℚ)

/-- `calc_crop(width, height, center_x, padding)`: returns `(w, h, x, y)`. -/
def calc_crop (width height : ℤ) (center_x : ℚ) (padding : ℚ) :
    ℤ × ℤ × ℤ × ℤ :=
  let crop_w0 := pytrunc ((height : ℚ) * 9 / 16)
  let crop_w1 := min crop_w0 width
  let pad_px := pytrunc ((crop_w1 : ℚ) * padding)
  let crop_w := crop_w1 - 2 * pad_px
  let x0 := pytrunc (center_x - (crop_w : ℚ) / 2)
  let x := max 0 (min x0 (width - crop_w))
  (crop_w, height, x, 0)

/-- The confidence heuristic of `analyze_crop_coordinates` (lines 239-241):
`deviation = abs(center - width / 2) / (width / 2)`,
`confidence = max(0.1, 1.0 - deviation)`. -/
def crop_confidence (center : ℚ) (width : ℤ) : ℚ :=
  let optimal_center := (width : ℚ) / 2
  let deviation := |center - optimal_center| / optimal_center
  max (1 / 10) (1 - deviation)

/-- `get_video_duration`: `frame_count / fps if fps > 0 else 0`. -/
def get_video_duration (fps frame_count : ℚ) : ℚ :=
  if 0 < fps then frame_count / fps else 0

/-- The index computation of `sample_frames_direct` for requested count
`num_frames` at loop position `i`:
`start_frame = int(frame_count * 0.1)`, `end_frame = int(frame_count * 0.9)`,
`idx = start_frame + int((i / (num_frames - 1)) * (end_frame - start_frame))`.
Python's true division `i / (num_frames - 1)` raises `ZeroDivisionError` when
`num_frames == 1`; the raise is modelled by the `Except` error. -/
def sample_direct_idx (frame_count : ℤ) (num_frames : ℕ) (i : ℕ) : Except String ℤ :=
  let start_frame := pytrunc ((frame_count : ℚ) * (1 / 10))
  let end_frame := pytrunc ((frame_count : ℚ) * (9 / 10))
  if num_frames = 1 then Except.error "ZeroDivisionError: division by zero"
  else Except.ok (start_frame +
    pytrunc (((i : ℚ) / ((num_frames : ℚ) - 1)) * ((end_frame : ℚ) - (start_frame : ℚ))))

/-- The `for i in range(num_frames)` loop of `sample_frames_direct`, collecting
the sampled indices (frame decoding is external; a frame that fails to read is
skipped downstream and does not change which indices are computed).  The
second `ℕ` argument counts the remaining iterations. -/
def sample_direct_go (frame_count : ℤ) (num_frames : ℕ) (i : ℕ) :
    ℕ → Except String (List ℤ)
  | 0 => Except.ok []
  | k + 1 =>
    match sample_direct_idx frame_count num_frames i with
    | .error e => .error e
    | .ok v =>
      match sample_direct_go frame_count num_frames (i + 1) k with
      | .error e => .error e
      | .ok rest => .ok (v :: rest)

/-- The full index sequence computed by `sample_frames_direct` for a video
with `frame_count` frames when `num_frames` samples are requested. -/
def sample_frames_direct_indices (frame_count : ℤ) (num_frames : ℕ) :
    Except String (List ℤ) :=
  sample_direct_go frame_count num_frames 0 num_frames

/-- One crop record of the result artifact produced by
`analyze_crop_coordinates` (the dict with keys `w`, `h`, `x`, `y`,
`confidence`). -/
structure Crop where
  w : ℤ
  h : ℤ
  x : ℤ
  y : ℤ
  confidence : ℚ
  deriving DecidableEq, Repr, Inhabited

/-- One `scene_crops` entry of a `multi` plan. -/
structure Segment where
  start_time : ℚ
  end_time : ℚ
  crop : Crop
  deriving DecidableEq, Repr, Inhabited

/-- The dictionary returned by `analyze_crop_coordinates`: either a structured
failure, a `single` plan, or a `multi` plan (with `overall_confidence`,
`source` info and `scene_count`). -/
inductive AnalyzeResult where
  | failure (error : String)
  | single (crop : Crop) (width height : ℤ) (duration : ℚ)
  | multi (scenes : List Segment) (overall_confidence : ℚ) (width height : ℤ)
      (duration : ℚ) (scene_count : ℕ)
  deriving DecidableEq, Repr

def AnalyzeResult.isSingle : AnalyzeResult → Bool
  | .single _ _ _ _ => true
  | _ => false

def AnalyzeResult.isMulti : AnalyzeResult → Bool
  | .multi _ _ _ _ _ _ => true
  | _ => false

/-- The configuration fields of `args` used by the analysis decision logic.
`frames_per_scene` and the detection confidence threshold act only through
the sampled frames and the detection backend, which are environment data. -/
structure Args where
  padding : ℚ
  box_strategy : Strategy
  deriving DecidableEq, Repr

/-- What the script reads from one scene file produced by the segmentation
service: its measured duration (`get_video_duration`), its dimensions and the
frames `sample_frames` managed to decode. -/
structure SceneInfo where
  duration : ℚ
  width : ℤ
  height : ℤ
  frames : List Frame
  deriving DecidableEq, Repr

/-- The external world of one `analyze_crop_coordinates` call: the video
properties read through OpenCV, the outcome of `sample_frames_direct`
(an `Except` because its index loop can raise, and frame decoding is
external), the outcome of `run_scenedetect` (an `Except` because
`subprocess.run(check=True)` raises `CalledProcessError` on non-zero exit),
and the detection backend. -/
structure Env where
  width : ℤ
  height : ℤ
  fps : ℚ
  frame_count : ℚ
  direct : Except String (ℤ × ℤ × List Frame)
  scenedetect : Except String (List SceneInfo)
  backend : Frame → List Box

/-- The `single`-plan construction shared by the short-video path and the
fallback path: detect the center, compute the crop and the confidence. -/
def single_result (dur : ℚ) (args : Args) (backend : Frame → List Box)
    (w h : ℤ) (frames : List Frame) : AnalyzeResult :=
  let center := detect_center backend frames w args.box_strategy
  let c := calc_crop w h center args.padding
  let conf := crop_confidence center w
  .single ⟨c.1, c.2.1, c.2.2.1, c.2.2.2, conf⟩ w h dur

/-- `analyze_crop_coordinates_fallback`: single-crop analysis used when scene
detection yields nothing usable. -/
def analyze_crop_coordinates_fallback (env : Env) (args : Args) : AnalyzeResult :=
  match env.direct with
  | .error e => .failure e
  | .ok (w, h, frames) =>
    if frames.isEmpty then .failure "Could not extract frames from video"
    else single_result (get_video_duration env.fps env.frame_count) args env.backend w h frames

/-- The `for i, scene in enumerate(scenes)` loop of `analyze_crop_coordinates`:
a scene with no decoded frames appends nothing and leaves `current_time`
unchanged; a kept scene appends a segment `[current_time, current_time +
scene_duration]` and advances `current_time`. -/
def scene_loop (backend : Frame → List Box) (args : Args) :
    List SceneInfo → ℚ → List Segment
  | [], _ => []
  | s :: rest, current_time =>
    if s.frames.isEmpty then scene_loop backend args rest current_time
    else
      let center := detect_center backend s.frames s.width args.box_strategy
      let c := calc_crop s.width s.height center args.padding
      let conf := crop_confidence center s.width
      { start_time := current_time, end_time := current_time + s.duration,
        crop := ⟨c.1, c.2.1, c.2.2.1, c.2.2.2, conf⟩ } ::
        scene_loop backend args rest (current_time + s.duration)

/-- `analyze_crop_coordinates(video, args)`.  The whole body runs inside
`try/except`, so the two `Except`-valued externals surface as `.failure`
results rather than escaping. -/
def analyze_crop_coordinates (env : Env) (args : Args) : AnalyzeResult :=
  let duration := get_video_duration env.fps env.frame_count
  if duration < 10 then
    match env.direct with
    | .error e => .failure e
    | .ok (w, h, frames) =>
      if frames.isEmpty then .failure "Could not extract frames from video"
      else single_result duration args env.backend w h frames
  else
    match env.scenedetect with
    | .error e => .failure e
    | .ok scenes =>
      if scenes.isEmpty then analyze_crop_coordinates_fallback env args
      else
        let segs := scene_loop env.backend args scenes 0
        if segs.isEmpty then analyze_crop_coordinates_fallback env args
        else
          .multi segs ((segs.map (fun s => s.crop.confidence)).sum / (segs.length : ℚ))
            env.width env.height duration segs.length

/-- The argparse defaults: padding 0.05, box strategy `largest`. -/
def default_args : Args := { padding := 1 / 20, box_strategy := .largest }

/-- A 5-second video (fps 1, 5 frames) whose direct sampling decodes no
frame. -/
def env_short_no_frames : Env :=
  { width := 1920, height := 1080, fps := 1, frame_count := 5,
    direct := .ok (1920, 1080, []), scenedetect := .ok [], backend := fun _ => [] }

/-- A 20-second video split into three scenes of durations 3, 2 and 1; the
middle scene decodes no frame and is dropped. -/
def scenes_multi_dropped : List SceneInfo :=
  [⟨3, 1920, 1080, [0]⟩, ⟨2, 1920, 1080, []⟩, ⟨1, 1920, 1080, [1]⟩]

def env_multi_dropped : Env :=
  { width := 1920, height := 1080, fps := 1, frame_count := 20,
    direct := .ok (1920, 1080, [0]), scenedetect := .ok scenes_multi_dropped,
    backend := fun _ => [] }

/-- The plan computed for `env_multi_dropped`: the dropped scene leaves no
hole, the second kept scene starts at time 3. -/
def segs_multi_dropped : List Segment :=
  [⟨0, 3, ⟨547, 1080, 686, 0, 1⟩⟩, ⟨3, 4, ⟨547, 1080, 686, 0, 1⟩⟩]

/-- One scene file in `process_video`'s render loop: the data the loop reads
and the outcome of the external `crop_scene` call (ffmpeg with `check=True`,
which raises `CalledProcessError` on non-zero exit) as a function of the crop
parameters passed to it. -/
structure RenderScene where
  width : ℤ
  height : ℤ
  frames : List Frame
  crop_result : ℤ × ℤ × ℤ × ℤ → Except String Unit

/-- The external world of one `process_video` call: whether the output file
already exists, the outcome of `run_scenedetect`, the outcome of
`concat_scenes`, and the detection backend. -/
structure RenderEnv where
  output_exists : Bool
  scenedetect : Except String (List RenderScene)
  concat_result : Except String Unit
  backend : Frame → List Box

/-- The `for scene in scenes` loop of `process_video`: sample, detect, compute
the crop, then run the external crop; there is no `try/except` here, so an
external failure aborts the loop and propagates. -/
def render_scene_loop (backend : Frame → List Box) (args : Args) :
    List RenderScene → Except String Unit
  | [] => .ok ()
  | s :: rest =>
    let center := detect_center backend s.frames s.width args.box_strategy
    let crop_params := calc_crop s.width s.height center args.padding
    match s.crop_result crop_params with
    | .error e => .error e
    | .ok _ => render_scene_loop backend args rest

/-- `process_video(video, args)`: skip when the output exists and
`--overwrite` is not set; otherwise run scene detection, the render loop and
concatenation, with no exception handler anywhere. -/
def process_video (env : RenderEnv) (args : Args) (overwrite : Bool) :
    Except String Unit :=
  if env.output_exists && !overwrite then .ok ()
  else
    match env.scenedetect with
    | .error e => .error e
    | .ok scenes =>
      match render_scene_loop env.backend args scenes with
      | .error e => .error e
      | .ok _ => env.concat_result

/-- The directory-mode loop of `main`: `for video in videos:
process_video(video, args)`, with no `try/except` around the call. -/
def main_batch (args : Args) (overwrite : Bool) : List RenderEnv → Except String Unit
  | [] => .ok ()
  | v :: rest =>
    match process_video v args overwrite with
    | .error e => .error e
    | .ok _ => main_batch args overwrite rest

/-- A video whose scene detection subprocess exits non-zero during rendering. -/
def render_bad : RenderEnv :=
  { output_exists := false,
    scenedetect := .error "CalledProcessError: scenedetect exited non-zero",
    concat_result := .ok (), backend := fun _ => [] }

/-- A video that renders fine. -/
def render_good : RenderEnv :=
  { output_exists := false, scenedetect := .ok [],
    concat_result := .ok (), backend := fun _ => [] }

/-- A long video whose analysis-time scene detection raises. -/
def env_scenedetect_fails : Env :=
  { width := 1920, height := 1080, fps := 1, frame_count := 20,
    direct := .ok (1920, 1080, [0]),
    scenedetect := .error "CalledProcessError: scenedetect exited non-zero",
    backend := fun _ => [] }

theorem pytrunc_of_nonneg {q : ℚ} (h : 0 ≤ q) : pytrunc q = ⌊q⌋ := if_pos h

theorem pytrunc_nonneg {q : ℚ} (h : 0 ≤ q) : 0 ≤ pytrunc q := by
  rw [pytrunc_of_nonneg h]
  exact Int.floor_nonneg.mpr h

/-- The final clamp `x = max(0, min(x, width - crop_w))` keeps `x` inside
`[0, width - w]` whenever `w ≤ width`. -/
theorem clamp_bounds (width w x0 : ℤ) (hw : w ≤ width) :
    0 ≤ max 0 (min x0 (width - w)) ∧ max 0 (min x0 (width - w)) + w ≤ width := by
  constructor
  · exact le_max_left 0 _
  · have h1 : max 0 (min x0 (width - w)) ≤ width - w :=
      max_le (by omega) (min_le_right _ _)
    omega

/-- Claim C1: for every positive source size, focus point in `[0, width]` and
padding ratio in `[0, 1/2)`, the rectangle returned by `calc_crop` satisfies
`0 ≤ x`, `x + crop_width ≤ source_width`, `crop_height = source_height` and
`y = 0`. -/
theorem calc_crop_in_bounds (width height : ℤ) (center_x padding : ℚ)
    (hw : 0 < width) (hh : 0 < height) (hc0 : 0 ≤ center_x) (hcw : center_x ≤ (width : ℚ))
    (hp0 : 0 ≤ padding) (hp : padding < 1 / 2) :
    0 ≤ (calc_crop width height center_x padding).2.2.1 ∧
    (calc_crop width height center_x padding).2.2.1 +
      (calc_crop width height center_x padding).1 ≤ width ∧
    (calc_crop width height center_x padding).2.1 = height ∧
    (calc_crop width height center_x padding).2.2.2 = 0 := by
  have hh' : (0 : ℚ) ≤ (height : ℚ) := by exact_mod_cast hh.le
  have hA0 : 0 ≤ pytrunc ((height : ℚ) * 9 / 16) := pytrunc_nonneg (by positivity)
  have hB0 : (0 : ℤ) ≤ min (pytrunc ((height : ℚ) * 9 / 16)) width := le_min hA0 hw.le
  have hP0 : 0 ≤ pytrunc (((min (pytrunc ((height : ℚ) * 9 / 16)) width : ℤ) : ℚ) * padding) :=
    pytrunc_nonneg (mul_nonneg (by exact_mod_cast hB0) hp0)
  have hWw : min (pytrunc ((height : ℚ) * 9 / 16)) width -
      2 * pytrunc (((min (pytrunc ((height : ℚ) * 9 / 16)) width : ℤ) : ℚ) * padding) ≤ width := by
    have := min_le_right (pytrunc ((height : ℚ) * 9 / 16)) width
    omega
  obtain ⟨hx0, hxw⟩ := clamp_bounds width _
    (pytrunc (center_x - ((min (pytrunc ((height : ℚ) * 9 / 16)) width -
      2 * pytrunc (((min (pytrunc ((height : ℚ) * 9 / 16)) width : ℤ) : ℚ) * padding) : ℤ) : ℚ) / 2))
    hWw
  exact ⟨hx0, hxw, rfl, rfl⟩

/-- Witness for C1 at the concrete input 1920 by 1080, focus 960, padding 1/20. -/
theorem calc_crop_in_bounds_witness :
    0 ≤ (calc_crop 1920 1080 960 (1 / 20)).2.2.1 ∧
    (calc_crop 1920 1080 960 (1 / 20)).2.2.1 + (calc_crop 1920 1080 960 (1 / 20)).1 ≤ 1920 ∧
    (calc_crop 1920 1080 960 (1 / 20)).2.1 = 1080 ∧
    (calc_crop 1920 1080 960 (1 / 20)).2.2.2 = 0 :=
  calc_crop_in_bounds 1920 1080 960 (1 / 20) (by norm_num) (by norm_num) (by norm_num)
    (by norm_num) (by norm_num) (by norm_num)

/-- Claim C2, counterexample: on a 1920 by 1080 source with focus 960 and
padding 1/20 the crop width returned by the code is not 548.  The code
truncates with `int(...)`, so `int(1080 * 9 / 16) = 607` (not
`round(...) = 608`) and the final width is `607 - 2 * int(607 * 0.05) = 547`. -/
theorem calc_crop_scenario_a_width_ne_548 :
    (calc_crop 1920 1080 960 (1 / 20)).1 ≠ 548 := by
  norm_num [calc_crop, pytrunc, min_def, max_def]

/-- Claim C2 as amended: on a 1920 by 1080 source with focus 960 and padding
1/20, `calc_crop` returns width 547 (`int(1080 * 9 / 16) = 607` minus
`2 * int(607 * 0.05) = 60`), `x = 686`, height 1080, `y = 0`, and the
confidence computed for this focus point is 1. -/
theorem calc_crop_scenario_a_actual :
    calc_crop 1920 1080 960 (1 / 20) = (547, 1080, 686, 0) ∧
    crop_confidence 960 1920 = 1 := by
  constructor
  · norm_num [calc_crop, pytrunc, min_def, max_def]
  · norm_num [crop_confidence, max_def]

/-- Claim C6: whenever no frame yields a chosen person box (either the batch
is empty or the backend reports no person box for any frame), `detect_center`
returns exactly `frame_width / 2`, for every strategy, as a normal value. -/
theorem detect_center_fallback (backend : Frame → List Box) (frames : List Frame)
    (frame_width : ℤ) (strategy : Strategy)
    (h : frames = [] ∨ ∀ f ∈ frames, backend f = []) :
    detect_center backend frames frame_width strategy = (frame_width : ℚ) / 2 := by
  have hcenters : (frames.map backend).filterMap (fun person_boxes =>
      (pick_box person_boxes ((frame_width : ℚ) / 2) strategy).map
        (fun chosen => (chosen.x1 + chosen.x2) / 2)) = [] := by
    rcases h with h | h
    · subst h; rfl
    · rw [List.filterMap_eq_nil_iff]
      intro bs hbs
      rcases List.mem_map.mp hbs with ⟨f, hf, rfl⟩
      rw [h f hf]
      rfl
  simp only [detect_center, hcenters, List.isEmpty_nil, if_true]

/-- Witness for C6: three frames, backend detecting nothing, centered strategy. -/
theorem detect_center_fallback_witness :
    detect_center (fun _ => []) [0, 1, 2] 1280 .centered = (1280 : ℚ) / 2 :=
  detect_center_fallback (fun _ => []) [0, 1, 2] 1280 .centered
    (Or.inr (fun f _ => rfl))

/-- Claim C7: for any focus point and positive source width, the confidence
`max(0.1, 1 - |center - width/2| / (width/2))` lies in `[1/10, 1]`. -/
theorem crop_confidence_bounds (center : ℚ) (width : ℤ) (hw : 0 < width) :
    1 / 10 ≤ crop_confidence center width ∧ crop_confidence center width ≤ 1 := by
  have hw' : (0 : ℚ) < (width : ℚ) / 2 := by
    have : (0 : ℚ) < (width : ℚ) := by exact_mod_cast hw
    linarith
  constructor
  · exact le_max_left _ _
  · apply max_le
    · norm_num
    · have hdev : 0 ≤ |center - (width : ℚ) / 2| / ((width : ℚ) / 2) :=
        div_nonneg (abs_nonneg _) hw'.le
      linarith

/-- Witness for C7 at focus 50 on a 1280-wide source. -/
theorem crop_confidence_bounds_witness :
    1 / 10 ≤ crop_confidence 50 1280 ∧ crop_confidence 50 1280 ≤ 1 :=
  crop_confidence_bounds 50 1280 (by norm_num)

/-- Claim C4, counterexample: for `num_frames = 1` the loop body divides
`i / (num_frames - 1) = 0 / 0` and raises `ZeroDivisionError` on the very
first iteration; the index is not defined as `start`. -/
theorem sample_direct_one_frame_raises :
    sample_frames_direct_indices 100 1 =
      .error "ZeroDivisionError: division by zero" := rfl

theorem sample_direct_go_ok (frame_count : ℤ) (num_frames : ℕ) (h1 : ¬num_frames = 1) :
    ∀ (k i : ℕ), sample_direct_go frame_count num_frames i k =
      .ok ((List.range' i k).map (fun j =>
        pytrunc ((frame_count : ℚ) * (1 / 10)) +
        pytrunc (((j : ℚ) / ((num_frames : ℚ) - 1)) *
          ((pytrunc ((frame_count : ℚ) * (9 / 10)) : ℚ) -
           (pytrunc ((frame_count : ℚ) * (1 / 10)) : ℚ))))) := by
  intro k
  induction k with
  | zero => intro i; rfl
  | succ k ih =>
    intro i
    rw [sample_direct_go]
    simp only [sample_direct_idx, if_neg h1]
    rw [ih (i + 1), List.range'_succ]
    rfl

/-- Claim C4 as amended: whole-video sampling is total for every requested
count `N ≥ 2`, and for `i` in `[0, N)` the sampled index is
`int(0.1 * frame_count) + int((i / (N - 1)) * (int(0.9 * frame_count) -
int(0.1 * frame_count)))`; for `N = 1` the computation raises
`ZeroDivisionError` instead of returning `start`. -/
theorem sample_direct_total (frame_count : ℤ) (num_frames : ℕ) (h2 : 2 ≤ num_frames) :
    (sample_frames_direct_indices frame_count num_frames =
      .ok ((List.range num_frames).map (fun j =>
        pytrunc ((frame_count : ℚ) * (1 / 10)) +
        pytrunc (((j : ℚ) / ((num_frames : ℚ) - 1)) *
          ((pytrunc ((frame_count : ℚ) * (9 / 10)) : ℚ) -
           (pytrunc ((frame_count : ℚ) * (1 / 10)) : ℚ)))))) ∧
    sample_frames_direct_indices frame_count 1 =
      .error "ZeroDivisionError: division by zero" := by
  constructor
  · rw [sample_frames_direct_indices, sample_direct_go_ok frame_count num_frames (by omega),
      List.range_eq_range']
  · rfl

/-- Witness for the amended C4 at 100 frames and 5 requested samples. -/
theorem sample_direct_total_witness :
    (sample_frames_direct_indices 100 5 =
      .ok ((List.range 5).map (fun j =>
        pytrunc ((100 : ℚ) * (1 / 10)) +
        pytrunc (((j : ℚ) / ((5 : ℚ) - 1)) *
          ((pytrunc ((100 : ℚ) * (9 / 10)) : ℚ) -
           (pytrunc ((100 : ℚ) * (1 / 10)) : ℚ)))))) ∧
    sample_frames_direct_indices 100 1 =
      .error "ZeroDivisionError: division by zero" :=
  sample_direct_total 100 5 (by norm_num)

/-- A left fold that replaces the running best only on a strictly smaller key
returns the first element attaining the minimum key: the result splits the
list with every earlier element strictly larger and no element smaller. -/
theorem foldl_first_min {α : Type} (key : α → ℚ) :
    ∀ (l : List α) (a : α), ∃ l₁ l₂,
      a :: l = l₁ ++ (l.foldl (fun best c => if key c < key best then c else best) a) :: l₂ ∧
      (∀ b ∈ a :: l, key (l.foldl (fun best c => if key c < key best then c else best) a) ≤ key b) ∧
      (∀ b ∈ l₁, key (l.foldl (fun best c => if key c < key best then c else best) a) < key b) := by
  intro l
  induction l with
  | nil =>
    intro a
    exact ⟨[], [], rfl, by simp, by simp⟩
  | cons c l ih =>
    intro a
    rw [List.foldl_cons]
    by_cases hca : key c < key a
    · rw [if_pos hca]
      obtain ⟨l₁, l₂, heq, hle, hlt⟩ := ih c
      refine ⟨a :: l₁, l₂, ?_, ?_, ?_⟩
      · rw [List.cons_append, ← heq]
      · intro b hb
        rcases List.mem_cons.mp hb with rfl | hb
        · have hc : key (l.foldl (fun best c => if key c < key best then c else best) c) ≤ key c :=
            hle c (List.mem_cons_self c l)
          linarith
        · exact hle b hb
      · intro b hb
        rcases List.mem_cons.mp hb with rfl | hb
        · have hc : key (l.foldl (fun best c => if key c < key best then c else best) c) ≤ key c :=
            hle c (List.mem_cons_self c l)
          linarith
        · exact hlt b hb
    · rw [if_neg hca]
      have hac : key a ≤ key c := not_lt.mp hca
      obtain ⟨l₁, l₂, heq, hle, hlt⟩ := ih a
      cases l₁ with
      | nil =>
        simp only [List.nil_append] at heq
        have ha : a = l.foldl (fun best c => if key c < key best then c else best) a :=
          (List.cons.injEq _ _ _ _).mp heq |>.1
        refine ⟨[], c :: l₂, ?_, ?_, ?_⟩
        · simp only [List.nil_append]
          rw [← ha]
          have hl : l = l₂ := (List.cons.injEq _ _ _ _).mp heq |>.2
          rw [← hl]
        · intro b hb
          rcases List.mem_cons.mp hb with rfl | hb
          · rw [← ha]
          · rcases List.mem_cons.mp hb with rfl | hb2
            · rw [← ha]; exact hac
            · exact hle b (List.mem_cons_of_mem a hb2)
        · intro b hb
          exact absurd hb (List.not_mem_nil b)
      | cons a' l₁' =>
        simp only [List.cons_append] at heq
        have ha : a = a' := (List.cons.injEq _ _ _ _).mp heq |>.1
        have hl : l = l₁' ++ l.foldl (fun best c => if key c < key best then c else best) a :: l₂ :=
          (List.cons.injEq _ _ _ _).mp heq |>.2
        have hstrict_a :
            key (l.foldl (fun best c => if key c < key best then c else best) a) < key a := by
          have := hlt a' (List.mem_cons_self a' l₁')
          rw [← ha] at this
          exact this
        refine ⟨a :: c :: l₁', l₂, ?_, ?_, ?_⟩
        · simp only [List.cons_append]
          rw [← hl]
        · intro b hb
          rcases List.mem_cons.mp hb with rfl | hb
          · exact hle b (List.mem_cons_self b l)
          · rcases List.mem_cons.mp hb with rfl | hb2
            · linarith
            · exact hle b (List.mem_cons_of_mem a hb2)
        · intro b hb
          rcases List.mem_cons.mp hb with rfl | hb
          · exact hstrict_a
          · rcases List.mem_cons.mp hb with rfl | hb2
            · linarith
            · exact hlt b (List.mem_cons_of_mem a' hb2)

/-- A left fold that replaces the running best only on a strictly larger key
returns the first element attaining the maximum key. -/
theorem foldl_first_max {α : Type} (key : α → ℚ) :
    ∀ (l : List α) (a : α), ∃ l₁ l₂,
      a :: l = l₁ ++ (l.foldl (fun best c => if key best < key c then c else best) a) :: l₂ ∧
      (∀ b ∈ a :: l, key b ≤ key (l.foldl (fun best c => if key best < key c then c else best) a)) ∧
      (∀ b ∈ l₁, key b < key (l.foldl (fun best c => if key best < key c then c else best) a)) := by
  intro l
  induction l with
  | nil =>
    intro a
    exact ⟨[], [], rfl, by simp, by simp⟩
  | cons c l ih =>
    intro a
    rw [List.foldl_cons]
    by_cases hca : key a < key c
    · rw [if_pos hca]
      obtain ⟨l₁, l₂, heq, hle, hlt⟩ := ih c
      refine ⟨a :: l₁, l₂, ?_, ?_, ?_⟩
      · rw [List.cons_append, ← heq]
      · intro b hb
        rcases List.mem_cons.mp hb with rfl | hb
        · have hc : key c ≤ key (l.foldl (fun best c => if key best < key c then c else best) c) :=
            hle c (List.mem_cons_self c l)
          linarith
        · exact hle b hb
      · intro b hb
        rcases List.mem_cons.mp hb with rfl | hb
        · have hc : key c ≤ key (l.foldl (fun best c => if key best < key c then c else best) c) :=
            hle c (List.mem_cons_self c l)
          linarith
        · exact hlt b hb
    · rw [if_neg hca]
      have hac : key c ≤ key a := not_lt.mp hca
      obtain ⟨l₁, l₂, heq, hle, hlt⟩ := ih a
      cases l₁ with
      | nil =>
        simp only [List.nil_append] at heq
        have ha : a = l.foldl (fun best c => if key best < key c then c else best) a :=
          (List.cons.injEq _ _ _ _).mp heq |>.1
        refine ⟨[], c :: l₂, ?_, ?_, ?_⟩
        · simp only [List.nil_append]
          rw [← ha]
          have hl : l = l₂ := (List.cons.injEq _ _ _ _).mp heq |>.2
          rw [← hl]
        · intro b hb
          rcases List.mem_cons.mp hb with rfl | hb
          · rw [← ha]
          · rcases List.mem_cons.mp hb with rfl | hb2
            · rw [← ha]; exact hac
            · exact hle b (List.mem_cons_of_mem a hb2)
        · intro b hb
          exact absurd hb (List.not_mem_nil b)
      | cons a' l₁' =>
        simp only [List.cons_append] at heq
        have ha : a = a' := (List.cons.injEq _ _ _ _).mp heq |>.1
        have hl : l = l₁' ++ l.foldl (fun best c => if key best < key c then c else best) a :: l₂ :=
          (List.cons.injEq _ _ _ _).mp heq |>.2
        have hstrict_a :
            key a < key (l.foldl (fun best c => if key best < key c then c else best) a) := by
          have := hlt a' (List.mem_cons_self a' l₁')
          rw [← ha] at this
          exact this
        refine ⟨a :: c :: l₁', l₂, ?_, ?_, ?_⟩
        · simp only [List.cons_append]
          rw [← hl]
        · intro b hb
          rcases List.mem_cons.mp hb with rfl | hb
          · exact hle b (List.mem_cons_self b l)
          · rcases List.mem_cons.mp hb with rfl | hb2
            · linarith
            · exact hle b (List.mem_cons_of_mem a hb2)
        · intro b hb
          rcases List.mem_cons.mp hb with rfl | hb
          · exact hstrict_a
          · rcases List.mem_cons.mp hb with rfl | hb2
            · linarith
            · exact hlt b (List.mem_cons_of_mem a' hb2)

/-- Claim C8: on a non-empty candidate list, strategy `largest` picks a box of
maximum area and strategy `centered` picks a box whose center is closest to
the frame midpoint; in both strategies the chosen box is the first occurrence
attaining the optimum (every earlier box is strictly worse). -/
theorem pick_box_first_optimum (boxes : List Box) (frame_center : ℚ)
    (hne : boxes ≠ []) :
    (∃ r l₁ l₂, pick_box boxes frame_center .largest = some r ∧
      boxes = l₁ ++ r :: l₂ ∧ (∀ b ∈ boxes, box_area b ≤ box_area r) ∧
      ∀ b ∈ l₁, box_area b < box_area r) ∧
    (∃ r l₁ l₂, pick_box boxes frame_center .centered = some r ∧
      boxes = l₁ ++ r :: l₂ ∧
      (∀ b ∈ boxes, |box_center r - frame_center| ≤ |box_center b - frame_center|) ∧
      ∀ b ∈ l₁, |box_center r - frame_center| < |box_center b - frame_center|) := by
  cases boxes with
  | nil => exact absurd rfl hne
  | cons b bs =>
    constructor
    · obtain ⟨l₁, l₂, heq, hle, hlt⟩ := foldl_first_max box_area bs b
      exact ⟨_, l₁, l₂, rfl, heq, hle, hlt⟩
    · obtain ⟨l₁, l₂, heq, hle, hlt⟩ :=
        foldl_first_min (fun x => |box_center x - frame_center|) bs b
      exact ⟨_, l₁, l₂, rfl, heq, hle, hlt⟩

theorem fallback_ne_multi (env : Env) (args : Args) (segs : List Segment) (oc : ℚ)
    (w h : ℤ) (d : ℚ) (n : ℕ) :
    analyze_crop_coordinates_fallback env args ≠ .multi segs oc w h d n := by
  unfold analyze_crop_coordinates_fallback
  rcases env.direct with e | ⟨w', h', frames⟩
  · exact fun hc => AnalyzeResult.noConfusion hc
  · dsimp only
    by_cases hf : frames.isEmpty
    · rw [if_pos hf]
      exact fun hc => AnalyzeResult.noConfusion hc
    · rw [if_neg hf]
      exact fun hc => AnalyzeResult.noConfusion hc

/-- A `multi` plan can only come from the scene loop started at time 0 on the
scenes delivered by the segmentation service. -/
theorem analyze_multi_inv (env : Env) (args : Args) {segs : List Segment} {oc : ℚ}
    {w h : ℤ} {d : ℚ} {n : ℕ}
    (hm : analyze_crop_coordinates env args = .multi segs oc w h d n) :
    ∃ scenes, env.scenedetect = .ok scenes ∧
      segs = scene_loop env.backend args scenes 0 ∧ ¬segs = [] := by
  unfold analyze_crop_coordinates at hm
  by_cases hdur : get_video_duration env.fps env.frame_count < 10
  · rw [if_pos hdur] at hm
    rcases henv : env.direct with e | ⟨w', h', frames⟩ <;> rw [henv] at hm
    · exact absurd hm (fun hc => AnalyzeResult.noConfusion hc)
    · dsimp only at hm
      by_cases hf : frames.isEmpty
      · rw [if_pos hf] at hm
        exact absurd hm (fun hc => AnalyzeResult.noConfusion hc)
      · rw [if_neg hf] at hm
        exact absurd hm (fun hc => AnalyzeResult.noConfusion hc)
  · rw [if_neg hdur] at hm
    rcases henv : env.scenedetect with e | scenes <;> rw [henv] at hm
    · exact absurd hm (fun hc => AnalyzeResult.noConfusion hc)
    · dsimp only at hm
      by_cases hs : scenes.isEmpty
      · rw [if_pos hs] at hm
        exact absurd hm (fallback_ne_multi env args segs oc w h d n)
      · rw [if_neg hs] at hm
        by_cases hsegs : (scene_loop env.backend args scenes 0).isEmpty
        · rw [if_pos hsegs] at hm
          exact absurd hm (fallback_ne_multi env args segs oc w h d n)
        · rw [if_neg hsegs] at hm
          refine ⟨scenes, rfl, ?_, ?_⟩
          · exact ((AnalyzeResult.multi.injEq _ _ _ _ _ _ _ _ _ _ _ _).mp hm).1.symm
          · intro hnil
            have hsm : segs = scene_loop env.backend args scenes 0 :=
              ((AnalyzeResult.multi.injEq _ _ _ _ _ _ _ _ _ _ _ _).mp hm).1.symm
            rw [hsm] at hnil
            rw [hnil] at hsegs
            exact hsegs rfl

/-- In the segment list produced from time `t`, the first segment starts at
`t` and consecutive segments share their boundary times. -/
theorem scene_loop_start_chain (backend : Frame → List Box) (args : Args) :
    ∀ (scenes : List SceneInfo) (t : ℚ),
      (∀ s, (scene_loop backend args scenes t).head? = some s → s.start_time = t) ∧
      List.Chain' (fun a b => b.start_time = a.end_time)
        (scene_loop backend args scenes t) := by
  intro scenes
  induction scenes with
  | nil =>
    intro t
    refine ⟨fun s h => ?_, List.chain'_nil⟩
    cases h
  | cons s rest ih =>
    intro t
    rw [scene_loop]
    by_cases hf : s.frames.isEmpty
    · rw [if_pos hf]
      exact ih t
    · rw [if_neg hf]
      constructor
      · intro s' h
        rw [List.head?_cons] at h
        cases h
        rfl
      · rw [List.chain'_cons']
        constructor
        · intro s' h
          rw [(ih (t + s.duration)).1 s' h]
        · exact (ih (t + s.duration)).2

/-- The durations of the produced segments are exactly the measured durations
of the kept scenes, in order. -/
theorem scene_loop_durations (backend : Frame → List Box) (args : Args) :
    ∀ (scenes : List SceneInfo) (t : ℚ),
      (scene_loop backend args scenes t).map (fun g => g.end_time - g.start_time) =
        (scenes.filter (fun s => !s.frames.isEmpty)).map SceneInfo.duration := by
  intro scenes
  induction scenes with
  | nil => intro t; rfl
  | cons s rest ih =>
    intro t
    rw [scene_loop, List.filter_cons]
    by_cases hf : s.frames.isEmpty
    · rw [if_pos hf]
      simp only [hf, Bool.not_true, Bool.false_eq_true, if_false]
      exact ih t
    · rw [if_neg hf]
      simp only [Bool.not_eq_true] at hf
      simp only [hf, Bool.not_false, if_true, List.map_cons]
      rw [ih (t + s.duration)]
      simp

theorem scene_loop_nil_of_all_dropped (backend : Frame → List Box) (args : Args) :
    ∀ (scenes : List SceneInfo) (t : ℚ), (∀ s ∈ scenes, s.frames = []) →
      scene_loop backend args scenes t = [] := by
  intro scenes
  induction scenes with
  | nil => intro t _; rfl
  | cons s rest ih =>
    intro t h
    rw [scene_loop]
    have hs : s.frames.isEmpty = true := by
      rw [h s (List.mem_cons_self s rest)]
      rfl
    rw [if_pos hs]
    exact ih t (fun s' hs' => h s' (List.mem_cons_of_mem s hs'))

theorem scene_loop_ne_nil_of_kept (backend : Frame → List Box) (args : Args) :
    ∀ (scenes : List SceneInfo) (t : ℚ) (s : SceneInfo),
      s ∈ scenes → ¬s.frames = [] → ¬scene_loop backend args scenes t = [] := by
  intro scenes
  induction scenes with
  | nil =>
    intro t s hs _
    exact absurd hs (List.not_mem_nil s)
  | cons s0 rest ih =>
    intro t s hs hf
    rw [scene_loop]
    rcases List.mem_cons.mp hs with rfl | hmem
    · have hne : ¬s.frames.isEmpty = true := by
        rw [List.isEmpty_iff]
        exact hf
      rw [if_neg hne]
      exact List.cons_ne_nil _ _
    · by_cases h0 : s0.frames.isEmpty
      · rw [if_pos h0]
        exact ih t s hmem hf
      · rw [if_neg h0]
        exact List.cons_ne_nil _ _

theorem isEmpty_false_of_ne_nil {α : Type} {l : List α} (h : ¬l = []) :
    l.isEmpty = false := by
  rcases l with _ | ⟨a, l⟩
  · exact absurd rfl h
  · rfl

theorem kept_filter (s : SceneInfo) (hf : ¬s.frames = []) :
    (!s.frames.isEmpty) = true := by
  rw [isEmpty_false_of_ne_nil hf]
  rfl

theorem dropped_filter (s : SceneInfo) (hf : s.frames = []) :
    (!s.frames.isEmpty) = false := by
  rw [hf]
  rfl

/-- Claim C10: in every `multi` plan the first segment starts at time 0 and
each subsequent segment starts exactly where the previous one ends — the
timeline stays contiguous because the running counter advances only for kept
scenes, so a dropped scene shifts later segments earlier instead of leaving a
hole. -/
theorem multi_plan_contiguous (env : Env) (args : Args) (segs : List Segment)
    (oc : ℚ) (w h : ℤ) (d : ℚ) (n : ℕ)
    (hm : analyze_crop_coordinates env args = .multi segs oc w h d n) :
    segs.headI.start_time = 0 ∧
    List.Chain' (fun a b => b.start_time = a.end_time) segs := by
  obtain ⟨scenes, _, hsegs, hne⟩ := analyze_multi_inv env args hm
  subst hsegs
  refine ⟨?_, (scene_loop_start_chain env.backend args scenes 0).2⟩
  rcases hl : scene_loop env.backend args scenes 0 with _ | ⟨a, l⟩
  · exact absurd hl hne
  · have ha := (scene_loop_start_chain env.backend args scenes 0).1 a (by rw [hl]; rfl)
    exact ha

/-- Claim C5: in every `multi` plan the segment durations are exactly the
kept scenes' measured durations, the total coverage equals the total of the
scene durations when no scene is dropped, and when exactly one scene is
dropped the coverage falls short of the source duration (the total of the
scene durations) by exactly the dropped scene's duration. -/
theorem multi_plan_duration_coverage (env : Env) (args : Args) (segs : List Segment)
    (oc : ℚ) (w h : ℤ) (d : ℚ) (n : ℕ) (scenes : List SceneInfo)
    (hm : analyze_crop_coordinates env args = .multi segs oc w h d n)
    (hs : env.scenedetect = .ok scenes) :
    (segs.map (fun g => g.end_time - g.start_time) =
      (scenes.filter (fun s => !s.frames.isEmpty)).map SceneInfo.duration) ∧
    ((∀ s ∈ scenes, ¬s.frames = []) →
      (segs.map (fun g => g.end_time - g.start_time)).sum =
        (scenes.map SceneInfo.duration).sum) ∧
    (∀ (src_duration : ℚ) (l₁ : List SceneInfo) (dropped : SceneInfo)
        (l₂ : List SceneInfo),
      src_duration = (scenes.map SceneInfo.duration).sum →
      scenes = l₁ ++ dropped :: l₂ → dropped.frames = [] →
      (∀ s ∈ l₁ ++ l₂, ¬s.frames = []) →
      src_duration - (segs.map (fun g => g.end_time - g.start_time)).sum =
        dropped.duration) := by
  obtain ⟨scenes2, hs2, hsegs, hne⟩ := analyze_multi_inv env args hm
  rw [hs] at hs2
  injection hs2 with hsc
  subst hsc
  subst hsegs
  have hmap := scene_loop_durations env.backend args scenes 0
  refine ⟨hmap, ?_, ?_⟩
  · intro hall
    rw [hmap, List.filter_eq_self.mpr (fun s hs0 => kept_filter s (hall s hs0))]
  · intro src l₁ dropped l₂ hsrc hsplit hdropped hkept
    subst hsrc
    subst hsplit
    rw [hmap, List.filter_append, List.filter_cons, dropped_filter dropped hdropped]
    rw [if_neg Bool.false_ne_true]
    rw [List.filter_eq_self.mpr
        (fun s hs0 => kept_filter s (hkept s (List.mem_append_left _ hs0))),
      List.filter_eq_self.mpr
        (fun s hs0 => kept_filter s (hkept s (List.mem_append_right _ hs0)))]
    simp only [List.map_append, List.sum_append, List.map_cons, List.sum_cons]
    ring

theorem fallback_isSingle (env : Env) (args : Args) (w h : ℤ) (frames : List Frame)
    (hdir : env.direct = .ok (w, h, frames)) (hf : ¬frames = []) :
    (analyze_crop_coordinates_fallback env args).isSingle = true := by
  unfold analyze_crop_coordinates_fallback
  rw [hdir]
  dsimp only
  rw [isEmpty_false_of_ne_nil hf, if_neg Bool.false_ne_true]
  rfl

/-- Claim C9 as amended: a video shorter than 10 seconds gets a `single` plan
whenever direct sampling decodes at least one frame, and a structured failure
when it decodes none; a longer video gets a `single` plan through the
whole-video fallback when segmentation returns no scene or every scene is
dropped (again provided direct sampling decodes a frame), and a `multi` plan
whenever some scene keeps at least one frame. -/
theorem analyze_plan_type_policy (env : Env) (args : Args) :
    (get_video_duration env.fps env.frame_count < 10 →
      ∀ w h frames, env.direct = .ok (w, h, frames) → ¬frames = [] →
      (analyze_crop_coordinates env args).isSingle = true) ∧
    (get_video_duration env.fps env.frame_count < 10 →
      ∀ w h, env.direct = .ok (w, h, ([] : List Frame)) →
      analyze_crop_coordinates env args =
        .failure "Could not extract frames from video") ∧
    (¬get_video_duration env.fps env.frame_count < 10 →
      ∀ scenes, env.scenedetect = .ok scenes → (∀ s ∈ scenes, s.frames = []) →
      ∀ w h frames, env.direct = .ok (w, h, frames) → ¬frames = [] →
      (analyze_crop_coordinates env args).isSingle = true) ∧
    (¬get_video_duration env.fps env.frame_count < 10 →
      ∀ scenes s, env.scenedetect = .ok scenes → s ∈ scenes → ¬s.frames = [] →
      (analyze_crop_coordinates env args).isMulti = true) := by
  refine ⟨?_, ?_, ?_, ?_⟩
  · intro hdur w h frames hdir hf
    unfold analyze_crop_coordinates
    rw [if_pos hdur, hdir]
    dsimp only
    rw [isEmpty_false_of_ne_nil hf, if_neg Bool.false_ne_true]
    rfl
  · intro hdur w h hdir
    unfold analyze_crop_coordinates
    rw [if_pos hdur, hdir]
    rfl
  · intro hdur scenes hs hall w h frames hdir hf
    unfold analyze_crop_coordinates
    rw [if_neg hdur, hs]
    dsimp only
    have hloop : scene_loop env.backend args scenes 0 = [] :=
      scene_loop_nil_of_all_dropped env.backend args scenes 0 hall
    by_cases hse : scenes.isEmpty
    · rw [if_pos hse]
      exact fallback_isSingle env args w h frames hdir hf
    · rw [if_neg hse, hloop]
      exact fallback_isSingle env args w h frames hdir hf
  · intro hdur scenes s hs hmem hf
    unfold analyze_crop_coordinates
    rw [if_neg hdur, hs]
    dsimp only
    rw [isEmpty_false_of_ne_nil (List.ne_nil_of_mem hmem), if_neg Bool.false_ne_true]
    have hloopne := scene_loop_ne_nil_of_kept env.backend args scenes 0 s hmem hf
    rw [isEmpty_false_of_ne_nil hloopne, if_neg Bool.false_ne_true]
    rfl

/-- Claim C9, counterexample: on a 5-second video whose frames cannot be
extracted, `analyze_crop_coordinates` returns a structured failure, not a
`single` plan — so a short duration alone does not guarantee a `single`
plan. -/
theorem short_video_no_frames_failure :
    analyze_crop_coordinates env_short_no_frames default_args =
      .failure "Could not extract frames from video" ∧
    (analyze_crop_coordinates env_short_no_frames default_args).isSingle = false := by
  have h : analyze_crop_coordinates env_short_no_frames default_args =
      .failure "Could not extract frames from video" := by
    norm_num [analyze_crop_coordinates, env_short_no_frames, get_video_duration]
  exact ⟨h, by rw [h]; rfl⟩

theorem analyze_env_multi_dropped :
    analyze_crop_coordinates env_multi_dropped default_args =
      .multi segs_multi_dropped 1 1920 1080 20 2 := by
  norm_num [analyze_crop_coordinates, env_multi_dropped, default_args, get_video_duration,
    scenes_multi_dropped, scene_loop, detect_center, pick_box, calc_crop, crop_confidence,
    pytrunc, min_def, max_def, segs_multi_dropped]

/-- Witness for C10 on a concrete multi plan with a dropped middle scene. -/
theorem multi_plan_contiguous_witness :
    segs_multi_dropped.headI.start_time = 0 ∧
    List.Chain' (fun a b => b.start_time = a.end_time) segs_multi_dropped :=
  multi_plan_contiguous env_multi_dropped default_args segs_multi_dropped 1 1920 1080 20 2
    analyze_env_multi_dropped

/-- Witness for C5 on the same plan: segment durations `[3, 1]` match the kept
scenes, and the coverage falls short of the 6-second scene total by exactly
the dropped scene's 2 seconds. -/
theorem multi_plan_duration_coverage_witness :
    (segs_multi_dropped.map (fun g => g.end_time - g.start_time) =
      (scenes_multi_dropped.filter (fun s => !s.frames.isEmpty)).map SceneInfo.duration) ∧
    (scenes_multi_dropped.map SceneInfo.duration).sum -
      (segs_multi_dropped.map (fun g => g.end_time - g.start_time)).sum = 2 := by
  have h := multi_plan_duration_coverage env_multi_dropped default_args segs_multi_dropped
    1 1920 1080 20 2 scenes_multi_dropped analyze_env_multi_dropped rfl
  refine ⟨h.1, ?_⟩
  exact h.2.2 ((scenes_multi_dropped.map SceneInfo.duration).sum)
    [⟨3, 1920, 1080, [0]⟩] ⟨2, 1920, 1080, []⟩ [⟨1, 1920, 1080, [1]⟩]
    rfl rfl rfl (by decide)

/-- Witness for the amended C9: the 20-second video with a kept scene gets a
`multi` plan. -/
theorem analyze_plan_type_policy_witness :
    (analyze_crop_coordinates env_multi_dropped default_args).isMulti = true :=
  (analyze_plan_type_policy env_multi_dropped default_args).2.2.2
    (by norm_num [env_multi_dropped, get_video_duration])
    scenes_multi_dropped ⟨3, 1920, 1080, [0]⟩ rfl (List.mem_cons_self _ _)
    (List.cons_ne_nil 0 [])

/-- Claim C3, counterexample: in a batch of two videos where the first one's
scene-detection subprocess fails during rendering, the exception escapes
`process_video` into the batch driver and the run aborts, even though the
second video on its own would have processed fine — so not every per-video
failure is converted to a structured result with the batch continuing. -/
theorem batch_exception_propagates :
    main_batch default_args false [render_bad, render_good] =
      .error "CalledProcessError: scenedetect exited non-zero" ∧
    process_video render_good default_args false = .ok () := by
  constructor <;> rfl

/-- Claim C3 as amended: exceptions raised during per-video analysis
(`analyze_crop_coordinates`) are caught at that boundary and become
structured failure results, but exceptions raised during rendering
(`process_video`) are not caught and propagate into the batch driver,
aborting the remaining videos. -/
theorem analysis_caught_render_uncaught (env : Env) (args : Args) (renv : RenderEnv)
    (rest : List RenderEnv) (overwrite : Bool) (e₁ e₂ : String)
    (h₁ : env.scenedetect = .error e₁)
    (hdur : ¬get_video_duration env.fps env.frame_count < 10)
    (h₂ : renv.scenedetect = .error e₂)
    (hskip : renv.output_exists = false) :
    analyze_crop_coordinates env args = .failure e₁ ∧
    main_batch args overwrite (renv :: rest) = .error e₂ := by
  constructor
  · unfold analyze_crop_coordinates
    rw [if_neg hdur, h₁]
  · rw [main_batch, process_video, hskip, h₂]
    rfl

/-- Witness for the amended C3 at concrete environments. -/
theorem analysis_caught_render_uncaught_witness :
    analyze_crop_coordinates env_scenedetect_fails default_args =
      .failure "CalledProcessError: scenedetect exited non-zero" ∧
    main_batch default_args false [render_bad, render_good] =
      .error "CalledProcessError: scenedetect exited non-zero" :=
  analysis_caught_render_uncaught env_scenedetect_fails default_args render_bad [render_good]
    false _ _ rfl (by norm_num [env_scenedetect_fails, get_video_duration]) rfl rfl

/-- Witness for C8: two boxes with equal areas (first wins the tie in
`largest`) and distinct center distances (second wins in `centered`). -/
theorem pick_box_first_optimum_witness :
    (∃ r l₁ l₂,
      pick_box [⟨0, 0, 2, 2⟩, ⟨10, 0, 12, 2⟩] 11 .largest = some r ∧
      [⟨0, 0, 2, 2⟩, ⟨10, 0, 12, 2⟩] = l₁ ++ r :: l₂ ∧
      (∀ b ∈ [(⟨0, 0, 2, 2⟩ : Box), ⟨10, 0, 12, 2⟩], box_area b ≤ box_area r) ∧
      ∀ b ∈ l₁, box_area b < box_area r) ∧
    (∃ r l₁ l₂,
      pick_box [⟨0, 0, 2, 2⟩, ⟨10, 0, 12, 2⟩] 11 .centered = some r ∧
      [⟨0, 0, 2, 2⟩, ⟨10, 0, 12, 2⟩] = l₁ ++ r :: l₂ ∧
      (∀ b ∈ [(⟨0, 0, 2, 2⟩ : Box), ⟨10, 0, 12, 2⟩], |box_center r - 11| ≤ |box_center b - 11|) ∧
      ∀ b ∈ l₁, |box_center r - 11| < |box_center b - 11|) :=
  pick_box_first_optimum [⟨0, 0, 2, 2⟩, ⟨10, 0, 12, 2⟩] 11 (List.cons_ne_nil _ _)

end SmartCrop
